import Mathlib

/-!
Shallow embedding of `babushka-core/src/client/client_cmd.rs`: the resilient
connection layer of the client. The data model (`ConnectionState`, the backend
availability signal, the `ClientCMD` handle) and the operations
(`create_client`, `get_connection`, `reconnect`, `send_packed_command`,
`send_packed_commands`, `get_db`) are translated into pure functions.
Network effects (opening a connection, sending a command) are supplied as
oracles, and each operation additionally reports the events it performed
(reconnect calls, send invocations with their command and timeout, connection
attempts made), so that counting properties of the source can be stated.
A small-step transition system over the lock-guarded shared state captures the
concurrent protocol for the state-machine invariants.
-/

namespace ClientCmd

/-- Model of the external `redis::aio::MultiplexedConnection`: an identifier for
the underlying transport plus the selected database index reported by its
`get_db` method. Cloning the handle is free sharing, so a clone is the value
itself. -/
structure MultiplexedConnection where
  id : Nat
  db : Int
deriving DecidableEq, Repr

/-- Classification of `redis::RedisError` as this module consumes it.
`timeoutErr` is the error produced when `run_with_timeout` expires;
`upstream` is an application or protocol level error reported by the server;
`droppedConn` is a severed-transport error; `brokenPipe` is the io BrokenPipe
error that `get_disconnected_error` builds (source lines 118-121). -/
inductive RedisError
  | timeoutErr
  | upstream (code : Nat)
  | droppedConn (code : Nat)
  | brokenPipe
deriving DecidableEq, Repr

/-- Classification delegated to the external redis crate
(`RedisError::is_connection_dropped`): true exactly for severed-transport
errors. The io BrokenPipe error is in the dropped class; a timeout and an
application error are not (spec sections 6 and 7: only severed-transport
failures trigger reconnection). -/
def RedisError.is_connection_dropped : RedisError → Bool
  | .droppedConn _ => true
  | .brokenPipe => true
  | _ => false

/-- Source `ConnectionState` (lines 29-36). In the source the `Connected` and
`Reconnecting` variants also carry the `Arc<ConnectionBackend>`; the backend is
one shared immutable value per manager, so the embedding keeps its only mutable
part, the availability signal, next to the state in `MgrState`. -/
inductive ConnectionState
  | Connected (connection : MultiplexedConnection)
  | Reconnecting
  | Disconnected
deriving DecidableEq, Repr

/-- The shared mutable data guarded by the manager lock: the `ConnectionState`
plus the value of the backend `connection_available_signal`
(a manual-reset event; `true` means set). -/
structure MgrState where
  conn : ConnectionState
  signal : Bool
deriving DecidableEq, Repr

/-- Source `ClientCMD` (lines 41-47). `primary` is the `ConnectionWrapper`
(the lock-guarded state); the retry strategy is represented by the delay
sequence its iterator yields (spec: only the iteration contract is consumed);
`response_timeout` is a duration in milliseconds. -/
structure ClientCMD where
  primary : MgrState
  connection_retry_strategy : List Nat
  response_timeout : Nat
deriving DecidableEq, Repr

/-- Semantics of `tokio_retry::Retry::spawn` as used by
`try_create_multiplexed_connection` (lines 49-57): run the action; on failure
pull the next delay from the iterator; if the iterator is exhausted return that
failure; otherwise sleep for the delay and run the action again. `attempt n`
is the network oracle giving the outcome of the `(n+1)`-th call to
`client.get_multiplexed_async_connection()`; `delays` is the remaining delay
iterator; `n` is the index of the next attempt. -/
def retrySpawn (attempt : Nat → Except RedisError MultiplexedConnection) :
    List Nat → Nat → Except RedisError MultiplexedConnection
  | [], n => attempt n
  | _ :: rest, n =>
    match attempt n with
    | .ok c => .ok c
    | .error _ => retrySpawn attempt rest (n + 1)

/-- Number of connection attempts the retry loop of `retrySpawn` performs. -/
def retryAttemptCount (attempt : Nat → Except RedisError MultiplexedConnection) :
    List Nat → Nat → Nat
  | [], _ => 1
  | _ :: rest, n =>
    match attempt n with
    | .ok _ => 1
    | .error _ => 1 + retryAttemptCount attempt rest (n + 1)

/-- Source `ClientCMD::get_disconnected_error` (lines 118-121): an io
BrokenPipe error converted into a `RedisError`. -/
def get_disconnected_error {T : Type} : Except RedisError T := .error .brokenPipe

deriving instance DecidableEq for Except

/-- What one pass of the `get_connection` loop body does, as decided under the
lock: return a result, or capture the backend and wait on its availability
signal. -/
inductive GetConnPass
  | ret (r : Except RedisError MultiplexedConnection)
  | waitOnSignal
deriving DecidableEq, Repr

/-- One pass of the `get_connection` loop body (lines 124-139): on
`Connected` return a clone of the connection; on `Disconnected` return
`get_disconnected_error`; on `Reconnecting` capture the backend, release the
lock and wait on `connection_available_signal`. -/
def get_connection_pass : ConnectionState → GetConnPass
  | .Reconnecting => .waitOnSignal
  | .Connected c => .ret (.ok c)
  | .Disconnected => .ret get_disconnected_error

/-- The whole `get_connection` loop, run against the sequence of states the
caller observes at successive lock acquisitions: the head is the state at
entry, each later element is the state re-read after a signal wakeup. `none`
means the trace ended with the caller still waiting. -/
def get_connection_loop :
    List ConnectionState → Option (Except RedisError MultiplexedConnection)
  | [] => none
  | st :: rest =>
    match get_connection_pass st with
    | .ret r => some r
    | .waitOnSignal => get_connection_loop rest

/-- Source `get_connection` at a moment when no reconnection task is pending:
on `Reconnecting` the caller would wait on the signal with nobody left to set
it, so the call does not return (`none`); otherwise the loop returns on its
first pass. -/
def get_connection_now (st : MgrState) :
    Option (Except RedisError MultiplexedConnection) :=
  match get_connection_pass st.conn with
  | .ret r => some r
  | .waitOnSignal => none

/-- Source `ClientCMD::reconnect` (lines 142-177), sequential single-caller
model. On `Connected`: reset the signal, commit `Reconnecting`, spawn the
detached attempt (`try_create_multiplexed_connection` with the manager retry
strategy), which on completion re-acquires the lock, sets the signal and
commits `Connected` on success or `Disconnected` on exhaustion; the caller then
obtains its result from `get_connection`. In this sequential model the
detached task completes before the waiting caller is woken, so the caller
reads the committed state. On any other state: exit early and delegate to
`get_connection` without spawning. Returns (caller result, final state,
connection attempts made); `none` as a result means the call never returns. -/
def reconnect (attempt : Nat → Except RedisError MultiplexedConnection)
    (delays : List Nat) (st : MgrState) :
    Option (Except RedisError MultiplexedConnection) × MgrState × Nat :=
  match st.conn with
  | .Connected _ =>
    match retrySpawn attempt delays 0 with
    | .ok c => (some (.ok c), ⟨.Connected c, true⟩, retryAttemptCount attempt delays 0)
    | .error _ =>
      (some get_disconnected_error, ⟨.Disconnected, true⟩,
        retryAttemptCount attempt delays 0)
  | _ => (get_connection_now st, st, 0)

/-- A command, abstract. -/
abbrev Cmd := Nat

/-- A response value, abstract. -/
abbrev Value := Nat

/-- Log entry for one `send_command` invocation (lines 179-185): the command
given to `send_packed_command` on the connection and the response timeout the
call ran under (`run_with_timeout(self.response_timeout, ...)`). -/
structure SendCall where
  cmd : Cmd
  timeout : Nat
deriving DecidableEq, Repr

/-- Outcome record of one dispatch operation: the result returned to the
caller (`none` means the call never returns), the final manager state, the
number of calls made to `reconnect`, the log of send invocations, and the
number of connection attempts performed. -/
structure DispatchOut (A : Type) where
  result : Option (Except RedisError A)
  primary : MgrState
  reconnectCalls : Nat
  sendLog : List SendCall
  attempts : Nat
deriving Repr

/-- Source `ClientCMD::send_packed_command` (lines 187-201):
`get_connection`; send the command under the response timeout; on success
return the value; on a failure classified `is_connection_dropped`, call
`reconnect` (propagating its error with no further send) and, with the fresh
connection, send once more under the same timeout, returning that second
result regardless of outcome; on any other failure return it unchanged.
`sendOutcome n` is the oracle for the outcome of the `(n+1)`-th send
invocation of this call; `attempt` is the network oracle for connection
attempts. -/
def send_packed_command (client : ClientCMD)
    (sendOutcome : Nat → Except RedisError Value)
    (attempt : Nat → Except RedisError MultiplexedConnection)
    (cmd : Cmd) : DispatchOut Value :=
  let call : SendCall := ⟨cmd, client.response_timeout⟩
  match get_connection_now client.primary with
  | none => ⟨none, client.primary, 0, [], 0⟩
  | some (.error e) => ⟨some (.error e), client.primary, 0, [], 0⟩
  | some (.ok _) =>
    match sendOutcome 0 with
    | .ok v => ⟨some (.ok v), client.primary, 0, [call], 0⟩
    | .error e =>
      if e.is_connection_dropped then
        match reconnect attempt client.connection_retry_strategy client.primary with
        | (none, st, n) => ⟨none, st, 1, [call], n⟩
        | (some (.error e2), st, n) => ⟨some (.error e2), st, 1, [call], n⟩
        | (some (.ok _), st, n) => ⟨some (sendOutcome 1), st, 1, [call, call], n⟩
      else ⟨some (.error e), client.primary, 0, [call], 0⟩

/-- Modelled from the spec: the external session batch send
(`Session.send_batch`, spec section 6; `redis` crate
`send_packed_commands(cmd, offset, count)`) returns, on success, the ordered
response sequence matching request order over the requested contiguous range;
`resp i` is the response to request `i`, and the result lists the responses to
requests `offset, offset+1, ..., offset+count-1` in that order. -/
def session_send_batch (resp : Nat → Value) (offset count : Nat) : List Value :=
  (List.range count).map (fun i => resp (offset + i))

/-- Log entry for one `send_commands` invocation (lines 203-215): the pipeline
sent, the offset and count passed through unchanged, and the response timeout
the call ran under. -/
structure BatchCall where
  pipeline : Nat
  offset : Nat
  count : Nat
  timeout : Nat
deriving DecidableEq, Repr

/-- Outcome record of one batch dispatch, as `DispatchOut` but logging batch
send invocations. -/
structure BatchOut where
  result : Option (Except RedisError (List Value))
  primary : MgrState
  reconnectCalls : Nat
  batchLog : List BatchCall
  attempts : Nat
deriving Repr

/-- Source `ClientCMD::send_packed_commands` (lines 217-233): same contract as
`send_packed_command` over a pipeline sub-range; on a dropped-connection
failure the whole requested range is resent once with the same pipeline,
offset and count against the fresh connection, and that second result is
returned regardless of outcome. `batchErr n` is the oracle for the failure, if
any, of the `(n+1)`-th batch send invocation of this call; a successful
invocation returns the ordered responses `session_send_batch resp offset
count`. -/
def send_packed_commands (client : ClientCMD)
    (batchErr : Nat → Option RedisError) (resp : Nat → Value)
    (attempt : Nat → Except RedisError MultiplexedConnection)
    (pipeline offset count : Nat) : BatchOut :=
  let call : BatchCall := ⟨pipeline, offset, count, client.response_timeout⟩
  match get_connection_now client.primary with
  | none => ⟨none, client.primary, 0, [], 0⟩
  | some (.error e) => ⟨some (.error e), client.primary, 0, [], 0⟩
  | some (.ok _) =>
    match batchErr 0 with
    | none =>
      ⟨some (.ok (session_send_batch resp offset count)), client.primary, 0, [call], 0⟩
    | some e =>
      if e.is_connection_dropped then
        match reconnect attempt client.connection_retry_strategy client.primary with
        | (none, st, n) => ⟨none, st, 1, [call], n⟩
        | (some (.error e2), st, n) => ⟨some (.error e2), st, 1, [call], n⟩
        | (some (.ok _), st, n) =>
          match batchErr 1 with
          | none => ⟨some (.ok (session_send_batch resp offset count)), st, 1,
              [call, call], n⟩
          | some e2 => ⟨some (.error e2), st, 1, [call, call], n⟩
      else ⟨some (.error e), client.primary, 0, [call], 0⟩

/-- Source `ClientCMD::get_db` (lines 234-240): acquire the lock without
suspending (`blocking_lock`); if `Connected`, return the connection selected
database index, otherwise the sentinel `-1`. A total function of the state:
it never waits on the availability signal. -/
def get_db (client : ClientCMD) : Int :=
  match client.primary.conn with
  | .Connected c => c.db
  | _ => -1

/-- Modelled from the spec: `to_duration` (a helper of the surrounding client
module, not part of this file) turns the optional requested response timeout
into a duration, falling back to the given default (spec section 3:
a duration applied uniformly to every dispatch). -/
def to_duration (timeout : Option Nat) (deflt : Nat) : Nat := timeout.getD deflt

/-- Modelled from the spec: the default response timeout constant of the
surrounding client module; its concrete value is irrelevant here. -/
def DEFAULT_RESPONSE_TIMEOUT : Nat := 250

/-- The fields of the protobuf `ConnectionRequest` that `create_client`
reads. Addresses and authentication data are abstract identifiers; the retry
strategy field is represented by the delay sequence it denotes. -/
structure ConnectionRequest where
  addresses : List Nat
  tls_mode : Nat
  response_timeout : Option Nat
  connection_retry_strategy : List Nat
  authentication_info : Nat
deriving DecidableEq, Repr

/-- Source `ClientCMD::create_client` (lines 84-116). `openClient` is the
oracle for the external `get_client`/`redis::Client::open` call, applied to
the first address of the request, the tls mode and the authentication info;
`attempt` is the network oracle for the successive connection attempts of
`try_create_connection`. The result `none` models the panic of
`connection_request.addresses.first().unwrap()` on an empty address list.
On success the backend signal starts set (`ManualResetEvent::new(true)`) and
the manager state is `Connected`. -/
def create_client (openClient : Nat → Nat → Nat → Except RedisError Nat)
    (attempt : Nat → Except RedisError MultiplexedConnection)
    (request : ConnectionRequest) : Option (Except RedisError ClientCMD) :=
  match request.addresses.head? with
  | none => none
  | some address =>
    match openClient address request.tls_mode request.authentication_info with
    | .error e => some (.error e)
    | .ok _ =>
      match retrySpawn attempt request.connection_retry_strategy 0 with
      | .error e => some (.error e)
      | .ok connection =>
        some (.ok ⟨⟨.Connected connection, true⟩,
          request.connection_retry_strategy,
          to_duration request.response_timeout DEFAULT_RESPONSE_TIMEOUT⟩)

/-- Predetermined outcome of a detached reconnection task: the
`try_create_multiplexed_connection` call inside the spawned task either
produces a fresh connection or exhausts its retries. -/
inductive TaskOutcome
  | success (c : MultiplexedConnection)
  | failure
deriving DecidableEq, Repr

/-- Global state of the concurrent protocol: the lock-guarded
`ConnectionState`, the backend availability signal, and the detached
reconnection task currently spawned but not yet committed, if any, with its
predetermined outcome. -/
structure Sys where
  conn : ConnectionState
  signal : Bool
  task : Option TaskOutcome
deriving DecidableEq, Repr

/-- State of a freshly constructed manager (`try_create_connection`, lines
59-69, with the signal created set, line 104): `Connected`, signal set, no
task pending. -/
def initSys (c : MultiplexedConnection) : Sys := ⟨.Connected c, true, none⟩

/-- The critical sections of the source that run while holding the manager
lock, as atomic steps. `reconnectStart` is the `Connected` branch of
`reconnect` (lines 146-157): reset the signal, commit `Reconnecting`, spawn
the detached task. `reconnectDelegate` is the other branch (lines 150-153):
exit early without writing. `commitSuccess` and `commitFailure` are the
detached task completion (lines 166-174): set the signal and commit
`Connected` on success or `Disconnected` on exhaustion. `readOnly` covers
every lock acquisition that writes no state (`get_connection` passes,
`get_db`). -/
inductive Step : Sys → Sys → Prop
  | reconnectStart (sys : Sys) (c : MultiplexedConnection) (o : TaskOutcome)
      (h : sys.conn = .Connected c) :
      Step sys ⟨.Reconnecting, false, some o⟩
  | reconnectDelegate (sys : Sys) (h : ∀ c, sys.conn ≠ .Connected c) :
      Step sys sys
  | commitSuccess (sys : Sys) (c : MultiplexedConnection)
      (h : sys.task = some (.success c)) :
      Step sys ⟨.Connected c, true, none⟩
  | commitFailure (sys : Sys) (h : sys.task = some .failure) :
      Step sys ⟨.Disconnected, true, none⟩
  | readOnly (sys : Sys) : Step sys sys

/-- Reflexive-transitive closure of `Step`. -/
inductive Reachable : Sys → Sys → Prop
  | refl (sys : Sys) : Reachable sys sys
  | tail {a b c : Sys} : Reachable a b → Step b c → Reachable a c

/-- The `ConnectionState` transitions the design allows: stay put, or
`Connected` to `Reconnecting`, or `Reconnecting` to `Connected`, or
`Reconnecting` to `Disconnected`. -/
def allowedTransition (a b : ConnectionState) : Prop :=
  a = b ∨
  ((∃ c, a = .Connected c) ∧ b = .Reconnecting) ∨
  (a = .Reconnecting ∧ ∃ c, b = .Connected c) ∨
  (a = .Reconnecting ∧ b = .Disconnected)

theorem retrySpawn_all_fail (attempt : Nat → Except RedisError MultiplexedConnection)
    (f : Nat → RedisError) (hf : ∀ n, attempt n = .error (f n)) :
    ∀ (delays : List Nat) (i : Nat),
      retrySpawn attempt delays i = .error (f (i + delays.length)) := by
  intro delays
  induction delays with
  | nil => intro i; simp [retrySpawn, hf i]
  | cons d rest ih =>
    intro i
    simp only [retrySpawn, hf i, ih (i + 1), List.length_cons]
    have harith : i + 1 + rest.length = i + (rest.length + 1) := by omega
    rw [harith]

theorem retryAttemptCount_all_fail
    (attempt : Nat → Except RedisError MultiplexedConnection)
    (f : Nat → RedisError) (hf : ∀ n, attempt n = .error (f n)) :
    ∀ (delays : List Nat) (i : Nat),
      retryAttemptCount attempt delays i = delays.length + 1 := by
  intro delays
  induction delays with
  | nil => intro i; simp [retryAttemptCount]
  | cons d rest ih =>
    intro i
    simp only [retryAttemptCount, hf i, ih (i + 1), List.length_cons]
    omega

theorem one_le_retryAttemptCount
    (attempt : Nat → Except RedisError MultiplexedConnection)
    (delays : List Nat) (i : Nat) : 1 ≤ retryAttemptCount attempt delays i := by
  cases delays with
  | nil => simp [retryAttemptCount]
  | cons d rest =>
    simp only [retryAttemptCount]
    cases attempt i <;> simp

theorem get_connection_loop_wait (k : Nat) (rest : List ConnectionState) :
    get_connection_loop (List.replicate k .Reconnecting ++ rest) =
      get_connection_loop rest := by
  induction k with
  | zero => simp
  | succ n ih =>
    simp only [List.replicate, List.cons_append, get_connection_loop,
      get_connection_pass]
    exact ih

theorem task_pending_reconnecting {c0 : MultiplexedConnection} {sys : Sys}
    (h : Reachable (initSys c0) sys) :
    ∀ o, sys.task = some o → sys.conn = .Reconnecting := by
  induction h with
  | refl => intro o ho; simp [initSys] at ho
  | tail hr hs ih =>
    cases hs with
    | reconnectStart c o h => intro o2 ho; rfl
    | reconnectDelegate h => exact ih
    | commitSuccess c h => intro o ho; simp at ho
    | commitFailure h => intro o ho; simp at ho
    | readOnly => exact ih

/-- C1: with the manager `Connected`, a first send failing with a
dropped-connection error triggers exactly one `reconnect` call and, when the
reconnection succeeds, exactly one retried send of the same command under the
same response timeout; the second send result, whatever it is (in particular a
second dropped-connection error), is returned to the caller with no further
reconnect or send in the same call. -/
theorem C1_single_drop_reconnect_retry_once
    (client : ClientCMD) (sendOutcome : Nat → Except RedisError Value)
    (attempt : Nat → Except RedisError MultiplexedConnection)
    (cmd : Cmd) (c c2 : MultiplexedConnection) (e : RedisError)
    (hconn : client.primary.conn = .Connected c)
    (hfirst : sendOutcome 0 = .error e)
    (hdrop : e.is_connection_dropped = true)
    (hretry : retrySpawn attempt client.connection_retry_strategy 0 = .ok c2) :
    (send_packed_command client sendOutcome attempt cmd).reconnectCalls = 1 ∧
    (send_packed_command client sendOutcome attempt cmd).sendLog =
      [⟨cmd, client.response_timeout⟩, ⟨cmd, client.response_timeout⟩] ∧
    (send_packed_command client sendOutcome attempt cmd).result =
      some (sendOutcome 1) ∧
    (send_packed_command client sendOutcome attempt cmd).primary =
      ⟨.Connected c2, true⟩ := by
  simp [send_packed_command, get_connection_now, get_connection_pass, hconn,
    hfirst, hdrop, reconnect, hretry]

/-- Witness for C1 at a concrete run: first send drops, reconnection succeeds
with a fresh connection, the retried send drops again and that error is the
result, with exactly one reconnect and two sends of command 5 under
timeout 100. -/
theorem C1_single_drop_reconnect_retry_once_witness :
    (send_packed_command ⟨⟨.Connected ⟨0, 0⟩, true⟩, [1], 100⟩
        (fun n => if n = 0 then .error (.droppedConn 1) else .error (.droppedConn 2))
        (fun _ => .ok ⟨1, 0⟩) 5).reconnectCalls = 1 ∧
    (send_packed_command ⟨⟨.Connected ⟨0, 0⟩, true⟩, [1], 100⟩
        (fun n => if n = 0 then .error (.droppedConn 1) else .error (.droppedConn 2))
        (fun _ => .ok ⟨1, 0⟩) 5).sendLog = [⟨5, 100⟩, ⟨5, 100⟩] ∧
    (send_packed_command ⟨⟨.Connected ⟨0, 0⟩, true⟩, [1], 100⟩
        (fun n => if n = 0 then .error (.droppedConn 1) else .error (.droppedConn 2))
        (fun _ => .ok ⟨1, 0⟩) 5).result = some (.error (.droppedConn 2)) ∧
    (send_packed_command ⟨⟨.Connected ⟨0, 0⟩, true⟩, [1], 100⟩
        (fun n => if n = 0 then .error (.droppedConn 1) else .error (.droppedConn 2))
        (fun _ => .ok ⟨1, 0⟩) 5).primary = ⟨.Connected ⟨1, 0⟩, true⟩ :=
  C1_single_drop_reconnect_retry_once
    ⟨⟨.Connected ⟨0, 0⟩, true⟩, [1], 100⟩
    (fun n => if n = 0 then .error (.droppedConn 1) else .error (.droppedConn 2))
    (fun _ => .ok ⟨1, 0⟩) 5 ⟨0, 0⟩ ⟨1, 0⟩ (.droppedConn 1) rfl rfl rfl rfl

/-- C2: in every system state reachable from a freshly constructed manager,
every atomic critical section of the source either leaves the
`ConnectionState` unchanged or performs one of the three transitions
`Connected` to `Reconnecting`, `Reconnecting` to `Connected`, `Reconnecting`
to `Disconnected`; in particular no step writes a new state when the current
state is `Disconnected`. -/
theorem C2_state_transitions {c0 : MultiplexedConnection} {sys sys2 : Sys}
    (hreach : Reachable (initSys c0) sys) (hstep : Step sys sys2) :
    allowedTransition sys.conn sys2.conn ∧
    (sys.conn = .Disconnected → sys2.conn = .Disconnected) := by
  cases hstep with
  | reconnectStart c o h =>
    refine ⟨Or.inr (Or.inl ⟨⟨c, h⟩, rfl⟩), fun hd => ?_⟩
    rw [hd] at h
    exact ConnectionState.noConfusion h
  | reconnectDelegate h => exact ⟨Or.inl rfl, fun hd => hd⟩
  | commitSuccess c h =>
    have hrec := task_pending_reconnecting hreach _ h
    refine ⟨Or.inr (Or.inr (Or.inl ⟨hrec, c, rfl⟩)), fun hd => ?_⟩
    rw [hd] at hrec
    exact ConnectionState.noConfusion hrec
  | commitFailure h =>
    have hrec := task_pending_reconnecting hreach _ h
    exact ⟨Or.inr (Or.inr (Or.inr ⟨hrec, rfl⟩)), fun _ => rfl⟩
  | readOnly => exact ⟨Or.inl rfl, fun hd => hd⟩

/-- Witness for C2: from the initial state of a fresh manager, the step that
enters reconnection performs an allowed transition. -/
theorem C2_state_transitions_witness :
    allowedTransition (initSys ⟨0, 0⟩).conn
      (Sys.mk .Reconnecting false (some .failure)).conn ∧
    ((initSys ⟨0, 0⟩).conn = .Disconnected →
      (Sys.mk .Reconnecting false (some .failure)).conn = .Disconnected) :=
  C2_state_transitions (Reachable.refl (initSys ⟨0, 0⟩))
    (Step.reconnectStart (initSys ⟨0, 0⟩) ⟨0, 0⟩ .failure rfl)

/-- C3: when the retry strategy yields exactly `delays.length` delays and
every connection attempt fails, a reconnection from `Connected` makes
`delays.length + 1` attempts, commits `Disconnected` with the availability
signal set, and returns the ConnectionLost (BrokenPipe) error; every waiter
that was pending in the `get_connection` loop then fails with that error as
soon as it re-checks the state, and a subsequent send on the `Disconnected`
manager fails immediately with it, making no send, no reconnect call and no
connection attempt (hence no delay). -/
theorem C3_exhaustion_terminal
    (attempt : Nat → Except RedisError MultiplexedConnection)
    (f : Nat → RedisError) (delays : List Nat) (c : MultiplexedConnection)
    (sig : Bool) (k : Nat) (T : Nat)
    (sendOutcome : Nat → Except RedisError Value) (cmd : Cmd)
    (hf : ∀ n, attempt n = .error (f n)) :
    reconnect attempt delays ⟨.Connected c, sig⟩ =
      (some (.error .brokenPipe), ⟨.Disconnected, true⟩, delays.length + 1) ∧
    get_connection_loop (List.replicate k .Reconnecting ++ [.Disconnected]) =
      some (.error .brokenPipe) ∧
    get_connection_now ⟨.Disconnected, true⟩ = some (.error .brokenPipe) ∧
    send_packed_command ⟨⟨.Disconnected, true⟩, delays, T⟩ sendOutcome attempt cmd =
      ⟨some (.error .brokenPipe), ⟨.Disconnected, true⟩, 0, [], 0⟩ := by
  refine ⟨?_, ?_, rfl, rfl⟩
  · simp [reconnect, retrySpawn_all_fail attempt f hf delays 0,
      retryAttemptCount_all_fail attempt f hf delays 0, get_disconnected_error]
  · rw [get_connection_loop_wait]
    rfl

/-- Witness for C3 at a concrete run: an empty delay list, so the sole
reconnection attempt fails, the manager commits `Disconnected`, and a
subsequent send fails immediately with the BrokenPipe error. -/
theorem C3_exhaustion_terminal_witness :
    reconnect (fun n => .error (.droppedConn n)) [] ⟨.Connected ⟨0, 0⟩, false⟩ =
      (some (.error .brokenPipe), ⟨.Disconnected, true⟩, 1) ∧
    get_connection_loop (List.replicate 2 .Reconnecting ++ [.Disconnected]) =
      some (.error .brokenPipe) ∧
    get_connection_now ⟨.Disconnected, true⟩ = some (.error .brokenPipe) ∧
    send_packed_command ⟨⟨.Disconnected, true⟩, [], 7⟩ (fun _ => .ok 0)
        (fun n => .error (.droppedConn n)) 3 =
      ⟨some (.error .brokenPipe), ⟨.Disconnected, true⟩, 0, [], 0⟩ :=
  C3_exhaustion_terminal (fun n => .error (.droppedConn n))
    (fun n => .droppedConn n) [] ⟨0, 0⟩ false 2 7 (fun _ => .ok 0) 3
    (fun _ => rfl)

/-- C4: the `get_connection` loop behaves by state as follows. On `Connected`
one pass returns a clone of the current connection (the state is not
written); on `Reconnecting` the pass waits on the availability signal and the
loop then re-checks from the top; on `Disconnected` the pass returns the
ConnectionLost (BrokenPipe) error immediately, whatever wakeups would follow,
without waiting on the signal. -/
theorem C4_get_connection_by_state (c : MultiplexedConnection)
    (rest : List ConnectionState) :
    get_connection_pass (.Connected c) = .ret (.ok c) ∧
    get_connection_loop (.Connected c :: rest) = some (.ok c) ∧
    get_connection_pass .Reconnecting = .waitOnSignal ∧
    get_connection_loop (.Reconnecting :: rest) = get_connection_loop rest ∧
    get_connection_pass .Disconnected = .ret (.error .brokenPipe) ∧
    get_connection_loop (.Disconnected :: rest) = some (.error .brokenPipe) :=
  ⟨rfl, rfl, rfl, rfl, rfl, rfl⟩

/-- Counterexample to C5 as stated: `reconnect` on an already `Disconnected`
manager does not start a reconnection attempt (zero attempts even though the
network oracle would succeed) and returns the ConnectionLost error, while from
`Connected` it does start one; a dispatch issued on the `Disconnected`
manager short-circuits to the error with zero reconnect calls, zero sends and
zero attempts, so it never re-enters the reconnection procedure. -/
theorem C5_counterexample :
    reconnect (fun n => .ok ⟨n, 0⟩) [1] ⟨.Disconnected, true⟩ =
      (some (.error .brokenPipe), ⟨.Disconnected, true⟩, 0) ∧
    (reconnect (fun n => .ok ⟨n, 0⟩) [1] ⟨.Connected ⟨0, 0⟩, true⟩).2.2 = 1 ∧
    send_packed_command ⟨⟨.Disconnected, true⟩, [1], 9⟩ (fun _ => .ok 0)
        (fun n => .ok ⟨n, 0⟩) 4 =
      ⟨some (.error .brokenPipe), ⟨.Disconnected, true⟩, 0, [], 0⟩ :=
  ⟨rfl, rfl, rfl⟩

/-- C5 amended: `reconnect` starts a new reconnection attempt only when the
state at entry is `Connected` (at least one attempt is then made); when the
state is `Reconnecting` or `Disconnected` it makes no attempt and delegates to
`get_connection`, so a dispatch issued on an already `Disconnected` manager
short-circuits to the ConnectionLost error without re-entering the
reconnection procedure. -/
theorem C5_reconnect_only_from_connected
    (attempt : Nat → Except RedisError MultiplexedConnection)
    (delays : List Nat) (sig : Bool) (T : Nat)
    (sendOutcome : Nat → Except RedisError Value) (cmd : Cmd)
    (c : MultiplexedConnection) :
    reconnect attempt delays ⟨.Disconnected, sig⟩ =
      (some (.error .brokenPipe), ⟨.Disconnected, sig⟩, 0) ∧
    reconnect attempt delays ⟨.Reconnecting, sig⟩ =
      (none, ⟨.Reconnecting, sig⟩, 0) ∧
    1 ≤ (reconnect attempt delays ⟨.Connected c, sig⟩).2.2 ∧
    send_packed_command ⟨⟨.Disconnected, sig⟩, delays, T⟩ sendOutcome attempt cmd =
      ⟨some (.error .brokenPipe), ⟨.Disconnected, sig⟩, 0, [], 0⟩ := by
  refine ⟨rfl, rfl, ?_, rfl⟩
  cases h : retrySpawn attempt delays 0 <;>
    simp [reconnect, h, one_le_retryAttemptCount]

/-- C6: a dispatch failure not classified as a dropped connection — the
timeout error and application (upstream) errors are so classified — is
returned to the caller unmodified, triggers no `reconnect` call, and leaves
the manager state identical before and after, for both the single-command and
the batch dispatch. -/
theorem C6_non_dropped_propagates_unchanged
    (client : ClientCMD) (c : MultiplexedConnection)
    (sendOutcome : Nat → Except RedisError Value)
    (batchErr : Nat → Option RedisError) (resp : Nat → Value)
    (attempt : Nat → Except RedisError MultiplexedConnection)
    (cmd pipeline offset count : Nat) (e e2 : RedisError)
    (hconn : client.primary.conn = .Connected c)
    (hfirst : sendOutcome 0 = .error e)
    (hnd : e.is_connection_dropped = false)
    (hb : batchErr 0 = some e2)
    (hnd2 : e2.is_connection_dropped = false) :
    send_packed_command client sendOutcome attempt cmd =
      ⟨some (.error e), client.primary, 0, [⟨cmd, client.response_timeout⟩], 0⟩ ∧
    send_packed_commands client batchErr resp attempt pipeline offset count =
      ⟨some (.error e2), client.primary, 0,
        [⟨pipeline, offset, count, client.response_timeout⟩], 0⟩ ∧
    RedisError.timeoutErr.is_connection_dropped = false ∧
    (RedisError.upstream 0).is_connection_dropped = false := by
  refine ⟨?_, ?_, rfl, rfl⟩
  · simp [send_packed_command, get_connection_now, get_connection_pass, hconn,
      hfirst, hnd]
  · simp [send_packed_commands, get_connection_now, get_connection_pass, hconn,
      hb, hnd2]

/-- Witness for C6 at a concrete run: a timeout on the single dispatch and an
upstream error on the batch dispatch are both returned unchanged, with no
reconnect call and the state untouched. -/
theorem C6_non_dropped_propagates_unchanged_witness :
    send_packed_command ⟨⟨.Connected ⟨2, 1⟩, true⟩, [1, 2], 42⟩
        (fun _ => .error .timeoutErr) (fun _ => .ok ⟨9, 0⟩) 1 =
      ⟨some (.error .timeoutErr), ⟨.Connected ⟨2, 1⟩, true⟩, 0, [⟨1, 42⟩], 0⟩ ∧
    send_packed_commands ⟨⟨.Connected ⟨2, 1⟩, true⟩, [1, 2], 42⟩
        (fun _ => some (.upstream 3)) (fun i => i) (fun _ => .ok ⟨9, 0⟩) 2 3 4 =
      ⟨some (.error (.upstream 3)), ⟨.Connected ⟨2, 1⟩, true⟩, 0,
        [⟨2, 3, 4, 42⟩], 0⟩ ∧
    RedisError.timeoutErr.is_connection_dropped = false ∧
    (RedisError.upstream 0).is_connection_dropped = false :=
  C6_non_dropped_propagates_unchanged ⟨⟨.Connected ⟨2, 1⟩, true⟩, [1, 2], 42⟩
    ⟨2, 1⟩ (fun _ => .error .timeoutErr) (fun _ => some (.upstream 3))
    (fun i => i) (fun _ => .ok ⟨9, 0⟩) 1 2 3 4 .timeoutErr (.upstream 3)
    rfl rfl rfl rfl rfl

/-- C7: batch dispatch with the manager `Connected`. On first success it
returns the responses to requests `offset, ..., offset + count - 1` in request
order, with one batch send. On a dropped-connection failure followed by a
successful reconnection, the whole requested range is resent exactly once with
the same pipeline, offset, count and timeout — never per command — and the
second result is returned regardless of outcome: the ordered range on
success (`batchErrC`), the error unchanged on failure (`batchErrB`). -/
theorem C7_batch_order_single_resend
    (client : ClientCMD) (c c2 : MultiplexedConnection)
    (batchErrA batchErrB batchErrC : Nat → Option RedisError)
    (resp : Nat → Value)
    (attempt : Nat → Except RedisError MultiplexedConnection)
    (pipeline offset count : Nat) (e e2 : RedisError)
    (hconn : client.primary.conn = .Connected c)
    (hretry : retrySpawn attempt client.connection_retry_strategy 0 = .ok c2)
    (hA : batchErrA 0 = none)
    (hB0 : batchErrB 0 = some e) (hBd : e.is_connection_dropped = true)
    (hB1 : batchErrB 1 = some e2)
    (hC0 : batchErrC 0 = some e) (hC1 : batchErrC 1 = none) :
    send_packed_commands client batchErrA resp attempt pipeline offset count =
      ⟨some (.ok ((List.range count).map (fun i => resp (offset + i)))),
        client.primary, 0,
        [⟨pipeline, offset, count, client.response_timeout⟩], 0⟩ ∧
    send_packed_commands client batchErrB resp attempt pipeline offset count =
      ⟨some (.error e2), ⟨.Connected c2, true⟩, 1,
        [⟨pipeline, offset, count, client.response_timeout⟩,
         ⟨pipeline, offset, count, client.response_timeout⟩],
        retryAttemptCount attempt client.connection_retry_strategy 0⟩ ∧
    send_packed_commands client batchErrC resp attempt pipeline offset count =
      ⟨some (.ok ((List.range count).map (fun i => resp (offset + i)))),
        ⟨.Connected c2, true⟩, 1,
        [⟨pipeline, offset, count, client.response_timeout⟩,
         ⟨pipeline, offset, count, client.response_timeout⟩],
        retryAttemptCount attempt client.connection_retry_strategy 0⟩ := by
  refine ⟨?_, ?_, ?_⟩
  · simp [send_packed_commands, get_connection_now, get_connection_pass, hconn,
      hA, session_send_batch]
  · simp [send_packed_commands, get_connection_now, get_connection_pass, hconn,
      hB0, hBd, hB1, reconnect, hretry]
  · simp [send_packed_commands, get_connection_now, get_connection_pass, hconn,
      hC0, hBd, hC1, reconnect, hretry, session_send_batch]

/-- Witness for C7 at concrete runs over the range `[3, 5)`: a clean first
batch returns the responses to requests 3 and 4 in order; a dropped first
batch is resent once as a whole, returning the second error unchanged in one
scenario and the ordered range in the other. -/
theorem C7_batch_order_single_resend_witness :
    send_packed_commands ⟨⟨.Connected ⟨0, 0⟩, true⟩, [1], 50⟩
        (fun _ => none) (fun i => 10 * i) (fun _ => .ok ⟨1, 0⟩) 8 3 2 =
      ⟨some (.ok [30, 40]), ⟨.Connected ⟨0, 0⟩, true⟩, 0, [⟨8, 3, 2, 50⟩], 0⟩ ∧
    send_packed_commands ⟨⟨.Connected ⟨0, 0⟩, true⟩, [1], 50⟩
        (fun n => if n = 0 then some (.droppedConn 1) else some (.upstream 2))
        (fun i => 10 * i) (fun _ => .ok ⟨1, 0⟩) 8 3 2 =
      ⟨some (.error (.upstream 2)), ⟨.Connected ⟨1, 0⟩, true⟩, 1,
        [⟨8, 3, 2, 50⟩, ⟨8, 3, 2, 50⟩], 1⟩ ∧
    send_packed_commands ⟨⟨.Connected ⟨0, 0⟩, true⟩, [1], 50⟩
        (fun n => if n = 0 then some (.droppedConn 1) else none)
        (fun i => 10 * i) (fun _ => .ok ⟨1, 0⟩) 8 3 2 =
      ⟨some (.ok [30, 40]), ⟨.Connected ⟨1, 0⟩, true⟩, 1,
        [⟨8, 3, 2, 50⟩, ⟨8, 3, 2, 50⟩], 1⟩ :=
  C7_batch_order_single_resend ⟨⟨.Connected ⟨0, 0⟩, true⟩, [1], 50⟩
    ⟨0, 0⟩ ⟨1, 0⟩ (fun _ => none)
    (fun n => if n = 0 then some (.droppedConn 1) else some (.upstream 2))
    (fun n => if n = 0 then some (.droppedConn 1) else none)
    (fun i => 10 * i) (fun _ => .ok ⟨1, 0⟩) 8 3 2 (.droppedConn 1)
    (.upstream 2) rfl rfl rfl rfl rfl rfl rfl rfl

/-- C8: `create_client` either returns a manager whose state is `Connected`
with the signal set — so `get_connection` on a freshly constructed manager
immediately succeeds and can observe neither `Reconnecting` nor
`Disconnected` — or, when every connection attempt of the initial procedure
fails, fails construction with the error of the last attempt (the one at
index `delays.length`, after `delays.length + 1` attempts) and returns no
manager. -/
theorem C8_create_connected_or_fails
    (openClient : Nat → Nat → Nat → Except RedisError Nat)
    (attempt : Nat → Except RedisError MultiplexedConnection)
    (request : ConnectionRequest) (mgr : ClientCMD) (f : Nat → RedisError)
    (a : Nat) (rest : List Nat) :
    (create_client openClient attempt request = some (.ok mgr) →
      ∃ c, mgr.primary = ⟨.Connected c, true⟩ ∧
        get_connection_now mgr.primary = some (.ok c)) ∧
    ((∀ n, attempt n = .error (f n)) → request.addresses = a :: rest →
      (∃ cid, openClient a request.tls_mode request.authentication_info = .ok cid) →
      create_client openClient attempt request =
        some (.error (f request.connection_retry_strategy.length))) := by
  constructor
  · intro hok
    unfold create_client at hok
    split at hok
    · simp at hok
    · split at hok
      · simp at hok
      · split at hok
        · simp at hok
        · simp only [Option.some.injEq, Except.ok.injEq] at hok
          subst hok
          exact ⟨_, rfl, rfl⟩
  · intro hf ha hopen2
    obtain ⟨cid, hopen⟩ := hopen2
    have hr := retrySpawn_all_fail attempt f hf request.connection_retry_strategy 0
    unfold create_client
    rw [ha]
    simp [hopen, hr]

/-- Witness for C8: one concrete creation where the single attempt succeeds,
yielding a `Connected` manager on which `get_connection` succeeds, and one
where every attempt fails, so construction fails with the error of the last
attempt (index 1 for the one-delay strategy `[3]`). -/
theorem C8_create_connected_or_fails_witness :
    (∃ c, (ClientCMD.mk ⟨.Connected ⟨5, 2⟩, true⟩ [3] 250).primary =
        ⟨.Connected c, true⟩ ∧
      get_connection_now (ClientCMD.mk ⟨.Connected ⟨5, 2⟩, true⟩ [3] 250).primary =
        some (.ok c)) ∧
    create_client (fun _ _ _ => .ok 0) (fun n => .error (.droppedConn n))
        ⟨[7], 0, none, [3], 9⟩ = some (.error (.droppedConn 1)) :=
  ⟨(C8_create_connected_or_fails (fun _ _ _ => .ok 0) (fun _ => .ok ⟨5, 2⟩)
      ⟨[7], 0, none, [3], 9⟩ ⟨⟨.Connected ⟨5, 2⟩, true⟩, [3], 250⟩
      (fun n => .droppedConn n) 7 []).1 rfl,
   (C8_create_connected_or_fails (fun _ _ _ => .ok 0)
      (fun n => .error (.droppedConn n)) ⟨[7], 0, none, [3], 9⟩
      ⟨⟨.Connected ⟨5, 2⟩, true⟩, [3], 250⟩ (fun n => .droppedConn n) 7 []).2
      (fun _ => rfl) rfl ⟨0, rfl⟩⟩

/-- C9: `get_db` returns the selected database index of the active connection
when the state is `Connected` and the sentinel `-1` when it is `Reconnecting`
or `Disconnected`; it is a total function of the state and never waits on the
availability signal. -/
theorem C9_get_db_sentinel (c : MultiplexedConnection) (sig : Bool)
    (rs : List Nat) (T : Nat) :
    get_db ⟨⟨.Connected c, sig⟩, rs, T⟩ = c.db ∧
    get_db ⟨⟨.Reconnecting, sig⟩, rs, T⟩ = -1 ∧
    get_db ⟨⟨.Disconnected, sig⟩, rs, T⟩ = -1 :=
  ⟨rfl, rfl, rfl⟩

/-- C10: `create_client` reads only the first address of the request — its
result is unchanged by any replacement of the remaining addresses — and on an
empty address list it panics (the `.first().unwrap()`, modelled as `none`)
instead of returning an error. -/
theorem C10_first_address_unwrap
    (openClient : Nat → Nat → Nat → Except RedisError Nat)
    (attempt : Nat → Except RedisError MultiplexedConnection)
    (request : ConnectionRequest) (a : Nat) (rest rest2 : List Nat) :
    (request.addresses = [] → create_client openClient attempt request = none) ∧
    create_client openClient attempt { request with addresses := a :: rest } =
      create_client openClient attempt { request with addresses := a :: rest2 } := by
  constructor
  · intro h
    unfold create_client
    rw [h]
    rfl
  · rfl

/-- Witness for C10: creation with an empty address list panics, and two
requests differing only after the first address produce the same result. -/
theorem C10_first_address_unwrap_witness :
    create_client (fun _ _ _ => .ok 0) (fun _ => .ok ⟨0, 0⟩)
        ⟨[], 0, none, [], 0⟩ = none ∧
    create_client (fun _ _ _ => .ok 0) (fun _ => .ok ⟨0, 0⟩)
        ⟨[4, 5], 0, none, [], 0⟩ =
      create_client (fun _ _ _ => .ok 0) (fun _ => .ok ⟨0, 0⟩)
        ⟨[4, 6, 7], 0, none, [], 0⟩ :=
  ⟨(C10_first_address_unwrap (fun _ _ _ => .ok 0) (fun _ => .ok ⟨0, 0⟩)
      ⟨[], 0, none, [], 0⟩ 0 [] []).1 rfl,
   (C10_first_address_unwrap (fun _ _ _ => .ok 0) (fun _ => .ok ⟨0, 0⟩)
      ⟨[], 0, none, [], 0⟩ 4 [5] [6, 7]).2⟩

end ClientCmd
